import Mathlib

/-!
Verification of the Smart Oil Gauge Home Assistant integration.

This file shallowly embeds the core of the integration:
- `api.py` (`SmartOilClient`: `_fetch_nonce`, `login`, `get_tanks_list` and
  the `AuthError` / `ApiError` failure taxonomy),
- `__init__.py` (`SmartOilGaugeDataUpdateCoordinator._async_update_data`),
- `entity.py` (`_safe_float`, `_tanks_from`),
- `sensor.py` (`PercentFullSensor.native_value`),
- `binary_sensor.py` (`LowOilSensor.is_on`),
and proves properties of the embedded definitions.

Network interaction is modelled by passing the outcome of each HTTP call
(timeout, transport error, or a concrete response) as an explicit argument;
the Python functions then become pure classification functions over these
outcomes. JSON values are modelled by the inductive `JValue`; Python floats
are modelled by rationals (all concrete values appearing in the claims are
exactly representable, and no rounding tie is involved).
-/

namespace SmartOil

/-- Model of a parsed JSON value (as produced by Python json decoding).
Numbers are modelled as rationals; an object is a list of key-value pairs
with distinct keys (Python dicts). -/
inductive JValue where
  | null : JValue
  | bool (b : Bool) : JValue
  | num (q : ℚ) : JValue
  | str (s : String) : JValue
  | arr (elems : List JValue) : JValue
  | obj (fields : List (String × JValue)) : JValue

/-- Whether the list of characters `t` starts with the list `p`. -/
def startsWithChars : List Char → List Char → Bool
  | [], _ => true
  | _ :: _, [] => false
  | p :: ps, c :: cs => p == c && startsWithChars ps cs

/-- Whether the pattern `p` occurs as a contiguous run inside `t`. -/
def listSub (p : List Char) : List Char → Bool
  | [] => p.isEmpty
  | c :: cs => startsWithChars p (c :: cs) || listSub p cs

/-- Python `pat in s` substring test on strings. -/
def strContains (s pat : String) : Bool := listSub pat.toList s.toList

/-- ASCII whitespace (Python whitespace beyond ASCII is outside the
model). Used both by `float()` argument stripping and by the regex
whitespace class in `_NONCE_RE`. -/
def pyWs (c : Char) : Bool :=
  c == ' ' || c == Char.ofNat 9 || c == Char.ofNat 10 || c == Char.ofNat 13 ||
    c == Char.ofNat 11 || c == Char.ofNat 12

/-- Strip leading and trailing whitespace. -/
def trimWs (cs : List Char) : List Char :=
  ((cs.dropWhile pyWs).reverse.dropWhile pyWs).reverse

/-- Numeric value of a run of decimal digit characters. -/
def digitsToNat (cs : List Char) : ℕ :=
  cs.foldl (fun a c => 10 * a + (c.toNat - 48)) 0

/-- Whether every character in the list is a decimal digit. -/
def allDigits (cs : List Char) : Bool := cs.all Char.isDigit

/-- Split a character list at the first occurrence of an exponent marker. -/
def splitExp (cs : List Char) : List Char × List Char :=
  cs.span (fun c => !(c == 'e' || c == 'E'))

/-- Model of Python `float(s)` restricted to finite decimal literals:
optional surrounding whitespace, optional sign, digits with an optional
fractional part, and an optional decimal exponent. Inputs Python would
also accept but that denote non-finite values (`inf`, `nan`) or use digit
underscores are outside the model and map to `none`. Returns `none`
exactly when Python raises `ValueError`. -/
def pyFloatOfString (s : String) : Option ℚ :=
  let cs := trimWs s.toList
  let signAndRest : ℚ × List Char :=
    match cs with
    | '-' :: rest => (-1, rest)
    | '+' :: rest => (1, rest)
    | _ => (1, cs)
  let sgn := signAndRest.1
  let body := signAndRest.2
  let mantExp := splitExp body
  let mant := mantExp.1
  let intFrac : List Char × List Char :=
    match mant.span (fun c => !(c == '.')) with
    | (ip, []) => (ip, [])
    | (ip, _ :: fp) => (ip, fp)
  let ip := intFrac.1
  let fp := intFrac.2
  if !(allDigits ip && allDigits fp) then none
  else if ip.isEmpty && fp.isEmpty then none
  else
    let mantVal : ℚ := (digitsToNat ip : ℚ) + (digitsToNat fp : ℚ) / (10 : ℚ) ^ fp.length
    match mantExp.2 with
    | [] => some (sgn * mantVal)
    | _ :: rest =>
      let expSignAndDigits : Bool × List Char :=
        match rest with
        | '-' :: ds => (true, ds)
        | '+' :: ds => (false, ds)
        | ds => (false, ds)
      let ds := expSignAndDigits.2
      if ds.isEmpty || !(allDigits ds) then none
      else
        let e : ℚ := (10 : ℚ) ^ (digitsToNat ds)
        if expSignAndDigits.1 then some (sgn * mantVal / e)
        else some (sgn * mantVal * e)

/-- Embeds `entity._safe_float(x)`: Python `float(x)` with `ValueError` and
`TypeError` mapped to `None`. The argument is the result of a Python
`dict.get`, so it is either a JSON value or `None` (modelled `none`).
`float(None)`, `float(list)`, `float(dict)` raise `TypeError`;
`float(bool)` yields 0.0 or 1.0; `float(str)` parses the string. -/
def safe_float : Option JValue → Option ℚ
  | none => none
  | some JValue.null => none
  | some (JValue.bool b) => some (if b then 1 else 0)
  | some (JValue.num q) => some q
  | some (JValue.str s) => pyFloatOfString s
  | some (JValue.arr _) => none
  | some (JValue.obj _) => none

/-- Python `d.get(k)` on a JSON value: field lookup when `d` is an object,
with a present-but-null field indistinguishable from an absent one only at
use sites that compare against `None` (callers below handle this). Returns
`none` when the key is absent. Non-objects have no `get`; the embedding is
only applied where the source has already checked `isinstance(d, dict)` or
where absence and non-object agree on the behaviour. -/
def pyGet (d : JValue) (k : String) : Option JValue :=
  match d with
  | JValue.obj fields => (fields.find? (fun p => p.1 == k)).map Prod.snd
  | _ => none

/-- Python `isinstance(d, dict)`. -/
def isDict : JValue → Bool
  | JValue.obj _ => true
  | _ => false

/-- Python truthiness of an optional JSON value (`None` is falsy, empty
containers and empty strings are falsy, zero is falsy). -/
def pyTruthy : Option JValue → Bool
  | none => false
  | some JValue.null => false
  | some (JValue.bool b) => b
  | some (JValue.num q) => !(q == 0)
  | some (JValue.str s) => !(s == "")
  | some (JValue.arr xs) => !xs.isEmpty
  | some (JValue.obj fs) => !fs.isEmpty

/-! ## The failure taxonomy and network model (`api.py`) -/

/-- The two exception classes of `api.py`: `AuthError` (authentication
failed or session expired) and `ApiError` (non-auth API error: network
issues, invalid data, etc.). -/
inductive Failure where
  | authError : Failure
  | apiError : Failure
deriving DecidableEq

/-- Outcome of one HTTP call made through the aiohttp session:
`timeout` models `asyncio.TimeoutError`, `clientError` models
`aiohttp.ClientError`, and `ok` carries the fully-read response. -/
inductive NetResult (α : Type) where
  | timeout : NetResult α
  | clientError : NetResult α
  | ok (resp : α) : NetResult α

/-- Constant `api.DEFAULT_TIMEOUT`: the fixed per-call timeout budget in seconds. -/
def DEFAULT_TIMEOUT : ℕ := 15

/-- Constant `const.LOGIN_URL`. -/
def LOGIN_URL : String := "https://app.smartoilgauge.com/login.php"

/-- Constant `const.AJAX_URL`. -/
def AJAX_URL : String := "https://app.smartoilgauge.com/ajax/main_ajax.php"

/-! ### Nonce extraction (`_NONCE_RE` and `_fetch_nonce`) -/

/-- Whether a character is one of the two quote characters matched by the
character classes in `_NONCE_RE`. -/
def isQuote (c : Char) : Bool := c == '"' || c == Char.ofNat 39

/-- Case-insensitive match of the literal `lit` at the head of `cs`;
returns the remainder on success. -/
def matchLit : List Char → List Char → Option (List Char)
  | [], cs => some cs
  | _ :: _, [] => none
  | l :: ls, c :: cs => if l.toLower == c.toLower then matchLit ls cs else none

/-- Expect a quote character at the head; return the remainder. -/
def expectQuote : List Char → Option (List Char)
  | [] => none
  | c :: cs => if isQuote c then some cs else none

/-- Expect one or more whitespace characters at the head (the greedy
run followed by a non-whitespace literal is deterministic). -/
def expectWs (cs : List Char) : Option (List Char) :=
  match cs.span pyWs with
  | (ws, rest) => if ws.isEmpty then none else some rest

/-- Attempt to match `_NONCE_RE` at the start of `cs`, returning the
captured nonce value. The regex is
`name=["]ccf_nonce["] \s+ value=["]([^"]+)["]` with each quote class also
accepting a single quote, case-insensitively on the literals; the greedy
quantifiers are deterministic because each is followed by a character
its class excludes. -/
def matchNonceAt (cs : List Char) : Option String :=
  (matchLit "name=".toList cs).bind fun cs =>
  (expectQuote cs).bind fun cs =>
  (matchLit "ccf_nonce".toList cs).bind fun cs =>
  (expectQuote cs).bind fun cs =>
  (expectWs cs).bind fun cs =>
  (matchLit "value=".toList cs).bind fun cs =>
  (expectQuote cs).bind fun cs =>
    match cs.span (fun c => !(isQuote c)) with
    | (val, rest) =>
      if val.isEmpty then none
      else match rest with
        | [] => none
        | _ :: _ => some (String.mk val)

/-- Model of `re.search` for `_NONCE_RE`: the leftmost position at which the
pattern matches. -/
def nonceSearch : List Char → Option String
  | [] => none
  | c :: cs =>
    match matchNonceAt (c :: cs) with
    | some v => some v
    | none => nonceSearch cs

/-- Embeds `SmartOilClient._fetch_nonce`, as a function of the outcome of the GET
of the login page: a timeout or transport error becomes `ApiError`; on a
response, the nonce is extracted from the page text if present (absence is
not an error). -/
def fetch_nonce : NetResult String → Except Failure (Option String)
  | NetResult.timeout => Except.error Failure.apiError
  | NetResult.clientError => Except.error Failure.apiError
  | NetResult.ok text => Except.ok (nonceSearch text.toList)

/-! ### `login` -/

/-- The HTTP response to the login POST: status code and body text. -/
structure LoginResponse where
  status : ℕ
  bodyText : String

/-- The form fields POSTed by `login` (`USER_FIELD`, `PASS_FIELD`, plus
`ccf_nonce` when a nonce was found). -/
def loginFormData (username password : String) (nonce : Option String) :
    List (String × String) :=
  [("username", username), ("user_pass", password)] ++
    (match nonce with
     | some n => if n == "" then [] else [("ccf_nonce", n)]
     | none => [])

/-- Classification of the login POST response (`login`, lines 150-169):
HTTP 5xx is `ApiError`; HTTP 401/403 is `AuthError`; otherwise the body
is inspected and a page still containing the password-field marker, or
both a generic Login marker and the product name, is `AuthError`; any
other response is success. -/
def loginClassify (r : LoginResponse) : Except Failure Unit :=
  if 500 ≤ r.status then Except.error Failure.apiError
  else if r.status = 401 ∨ r.status = 403 then Except.error Failure.authError
  else if strContains r.bodyText "name=\"user_pass\"" || strContains r.bodyText "user_pass" then
    Except.error Failure.authError
  else if strContains r.bodyText "Login" && strContains r.bodyText "Smart Oil Gauge" then
    Except.error Failure.authError
  else Except.ok ()

/-- Embeds `SmartOilClient.login`, as a function of the outcomes of its two
network calls (the login-page GET performed by `_fetch_nonce`, and the
credentials POST). A timeout or transport error on either call becomes
`ApiError`; otherwise the POST response is classified by
`loginClassify`. -/
def login (noncePage : NetResult String) (post : NetResult LoginResponse) :
    Except Failure Unit :=
  match fetch_nonce noncePage with
  | Except.error e => Except.error e
  | Except.ok _nonce =>
    match post with
    | NetResult.timeout => Except.error Failure.apiError
    | NetResult.clientError => Except.error Failure.apiError
    | NetResult.ok r => loginClassify r

/-! ### `get_tanks_list` -/

/-- The HTTP response to the AJAX POST: status code, Content-Type header
(empty string when absent, matching `resp.headers.get("Content-Type", "")`),
body text, and the result of attempting to decode the body as JSON
(`none` models `resp.json()` raising). -/
structure AjaxResponse where
  status : ℕ
  contentType : String
  bodyText : String
  json : Option JValue

/-- The payload POSTed by `get_tanks_list`. -/
def TANKS_PAYLOAD : String := "action=get_tanks_list&tank_id=0"

/-- The check `status in (401, 403)` applied to the JSON field
`data.get("Status")` (Python `==` between a JSON value and the ints
401/403: only numbers can be equal; bools are numerically 0/1 and never
401/403). -/
def statusIsUnauthorized (v : JValue) : Bool :=
  match v with
  | JValue.num q => q == 401 || q == 403
  | JValue.bool _ => false
  | _ => false

/-- The check `str(result).lower() != "ok"` is false, applied to a JSON
value: only a string can satisfy `str(v).lower() == "ok"` (numbers render
as digits, bools as True/False, containers with brackets). -/
def strLowerIsOk (v : JValue) : Bool :=
  match v with
  | JValue.str s => s.toLower == "ok"
  | _ => false

/-- Embeds `SmartOilClient.get_tanks_list`, as a function of the outcome of the
AJAX POST (`api.py` lines 199-256). A timeout or transport error is
`ApiError`. HTTP 401/403 is `AuthError`; other 4xx/5xx is `ApiError`.
A non-JSON content type whose body contains any of the login-page markers
`ccf_nonce`, `user_pass`, `Login` is `AuthError`, any other non-JSON body
is `ApiError`. A JSON body that fails to decode is `ApiError`. A decoded
mapping with `Status` 401/403 is `AuthError`; one with a non-null `result`
that is not (case-insensitively) `ok` is `ApiError`. Anything else is
returned unchanged as the snapshot. -/
def get_tanks_list : NetResult AjaxResponse → Except Failure JValue
  | NetResult.timeout => Except.error Failure.apiError
  | NetResult.clientError => Except.error Failure.apiError
  | NetResult.ok r =>
    if r.status = 401 ∨ r.status = 403 then Except.error Failure.authError
    else if 400 ≤ r.status then Except.error Failure.apiError
    else if !(strContains r.contentType "application/json") then
      if strContains r.bodyText "ccf_nonce" || strContains r.bodyText "user_pass" ||
          strContains r.bodyText "Login" then
        Except.error Failure.authError
      else Except.error Failure.apiError
    else
      match r.json with
      | none => Except.error Failure.apiError
      | some data =>
        if isDict data then
          match pyGet data "Status" with
          | some s =>
            if statusIsUnauthorized s then Except.error Failure.authError
            else
              match pyGet data "result" with
              | some JValue.null => Except.ok data
              | some v => if strLowerIsOk v then Except.ok data else Except.error Failure.apiError
              | none => Except.ok data
          | none =>
            match pyGet data "result" with
            | some JValue.null => Except.ok data
            | some v => if strLowerIsOk v then Except.ok data else Except.error Failure.apiError
            | none => Except.ok data
        else Except.ok data

/-! ## The polling coordinator (`__init__.py`) -/

/-- Outcome of one call into the client as seen by the coordinator:
a returned value, a raised `AuthError`, a raised `ApiError`, or any other
raised exception. -/
inductive CallResult (α : Type) where
  | ok (a : α) : CallResult α
  | authErr : CallResult α
  | apiErr : CallResult α
  | otherErr : CallResult α

/-- A client call raising `Failure` seen as a `CallResult`. -/
def toCallResult : Except Failure α → CallResult α
  | Except.ok a => CallResult.ok a
  | Except.error Failure.authError => CallResult.authErr
  | Except.error Failure.apiError => CallResult.apiErr

/-- Outcome of `_async_update_data`: a returned snapshot, a raised
`UpdateFailed`, or a raised `ConfigEntryAuthFailed`. -/
inductive CoordOutcome where
  | success (d : JValue) : CoordOutcome
  | updateFailed : CoordOutcome
  | configEntryAuthFailed : CoordOutcome

/-- One client call made during a refresh, for tracking how many fetches
and logins a single refresh performs. -/
inductive CallEvent where
  | fetchCall : CallEvent
  | loginCall : CallEvent
deriving DecidableEq

/-- Embeds `SmartOilGaugeDataUpdateCoordinator._async_update_data`
(`__init__.py` lines 109-147), as a function of the outcomes of the client
calls it may make (initial `get_tanks_list`, then on `AuthError` a `login`
followed by a retried `get_tanks_list`); the second component records the
calls actually performed, in order. The inner `try` block spans both the
`login` call and the retried `get_tanks_list`, so an `AuthError` raised by
either one reaches the `except AuthError` handler and becomes
`ConfigEntryAuthFailed`, while any other exception from either becomes
`UpdateFailed`. `ApiError` or any other exception from the initial fetch
becomes `UpdateFailed`. -/
def async_update_data (fetch1 : CallResult JValue) (loginRes : CallResult Unit)
    (fetch2 : CallResult JValue) : CoordOutcome × List CallEvent :=
  match fetch1 with
  | CallResult.ok d => (CoordOutcome.success d, [CallEvent.fetchCall])
  | CallResult.apiErr => (CoordOutcome.updateFailed, [CallEvent.fetchCall])
  | CallResult.otherErr => (CoordOutcome.updateFailed, [CallEvent.fetchCall])
  | CallResult.authErr =>
    match loginRes with
    | CallResult.authErr =>
      (CoordOutcome.configEntryAuthFailed, [CallEvent.fetchCall, CallEvent.loginCall])
    | CallResult.apiErr =>
      (CoordOutcome.updateFailed, [CallEvent.fetchCall, CallEvent.loginCall])
    | CallResult.otherErr =>
      (CoordOutcome.updateFailed, [CallEvent.fetchCall, CallEvent.loginCall])
    | CallResult.ok _ =>
      match fetch2 with
      | CallResult.ok d =>
        (CoordOutcome.success d,
          [CallEvent.fetchCall, CallEvent.loginCall, CallEvent.fetchCall])
      | CallResult.authErr =>
        (CoordOutcome.configEntryAuthFailed,
          [CallEvent.fetchCall, CallEvent.loginCall, CallEvent.fetchCall])
      | CallResult.apiErr =>
        (CoordOutcome.updateFailed,
          [CallEvent.fetchCall, CallEvent.loginCall, CallEvent.fetchCall])
      | CallResult.otherErr =>
        (CoordOutcome.updateFailed,
          [CallEvent.fetchCall, CallEvent.loginCall, CallEvent.fetchCall])

/-- Modelled from the spec: the host `DataUpdateCoordinator` (not part of
this repository) keeps the last successful snapshot; a refresh whose
`_async_update_data` returns a value replaces the cached snapshot
wholesale, and a refresh that raises (`UpdateFailed` or
`ConfigEntryAuthFailed`) leaves the previous snapshot unchanged
(spec sections 4.2 and 7: the coordinator always leaves the previous
snapshot intact on failure). -/
def refreshStore (prev : Option JValue) : CoordOutcome → Option JValue
  | CoordOutcome.success d => some d
  | CoordOutcome.updateFailed => prev
  | CoordOutcome.configEntryAuthFailed => prev

/-! ## Entities (`entity.py`, `sensor.py`, `binary_sensor.py`) -/

/-- Embeds `entity._tanks_from(data)`: extract the `tanks` list from the
coordinator data; `[]` if the data is `None`, not a dict, or its `tanks`
entry is missing or not a list. -/
def tanks_from : Option JValue → List JValue
  | none => []
  | some d =>
    match d with
    | JValue.obj fields =>
      match pyGet (JValue.obj fields) "tanks" with
      | some (JValue.arr xs) => xs
      | _ => []
    | _ => []

/-- Embeds `gallons = _safe_float(t.get("sensor_gallons")) or 0.0` in
`PercentFullSensor.native_value` (Python `or` maps both `None` and `0.0`
to `0.0`). -/
def tankGallons (t : JValue) : ℚ := (safe_float (pyGet t "sensor_gallons")).getD 0

/-- Embeds `capacity = _safe_float(t.get("nominal")) or 0.0` in
`PercentFullSensor.native_value`. -/
def tankCapacity (t : JValue) : ℚ := (safe_float (pyGet t "nominal")).getD 0

/-- Round half to even at integer precision, as Python `round` on an
exactly-representable value. -/
def roundHalfEven (q : ℚ) : ℤ :=
  let f := ⌊q⌋
  let frac := q - f
  if frac < 1 / 2 then f
  else if 1 / 2 < frac then f + 1
  else if Even f then f else f + 1

/-- Python `round(x, 2)` modelled on rationals. The source computes with
binary floats; every concrete value in the claims is far from a rounding
tie and from any representation boundary, so the rational model agrees
with the float computation there. -/
def pyRound2 (q : ℚ) : ℚ := (roundHalfEven (q * 100) : ℚ) / 100

/-- Embeds `PercentFullSensor.native_value` as a function of the tank record
this sensor resolves to (`self._tank()`, which yields a dict or `None`):
`None` when the record is missing or falsy; otherwise `0.0` when the
capacity (after `or 0.0` defaulting) is not positive, else the rounded
percentage. -/
def percent_full_value (t : Option JValue) : Option ℚ :=
  if !(pyTruthy t) then none
  else
    match t with
    | none => none
    | some tank =>
      if tankCapacity tank ≤ 0 then some 0
      else some (pyRound2 (tankGallons tank / tankCapacity tank * 100))

/-- Embeds `LowOilSensor.is_on` as a function of the tank record this sensor
resolves to: `None` when the record is missing or falsy or any of the
three fields fails to convert; otherwise whether gallons are at or below
`capacity * low_fraction`. -/
def low_oil_is_on (t : Option JValue) : Option Bool :=
  if !(pyTruthy t) then none
  else
    match t with
    | none => none
    | some tank =>
      match safe_float (pyGet tank "sensor_gallons"),
            safe_float (pyGet tank "low_level"),
            safe_float (pyGet tank "nominal") with
      | some gallons, some lowFraction, some capacity =>
        some (decide (gallons ≤ capacity * lowFraction))
      | _, _, _ => none

/-! ## Concrete fixtures used by witnesses and counterexamples -/

/-- A non-JSON response whose body contains the `Login` marker but neither
`user_pass` nor `Smart Oil Gauge`. -/
def respLoginOnly : AjaxResponse :=
  { status := 200, contentType := "text/html", bodyText := "Login", json := none }

/-- A non-JSON response whose body contains the password-field marker. -/
def respC2w : AjaxResponse :=
  { status := 200, contentType := "text/html",
    bodyText := "<input name=\"user_pass\">", json := none }

/-- An HTTP 200 JSON response whose body is the mapping with Status 401. -/
def respC5 : AjaxResponse :=
  { status := 200, contentType := "application/json", bodyText := "",
    json := some (JValue.obj [("Status", JValue.num 401)]) }

/-- An HTTP 200 JSON response carrying an empty tanks list. -/
def respTanks : AjaxResponse :=
  { status := 200, contentType := "application/json", bodyText := "",
    json := some (JValue.obj [("tanks", JValue.arr [])]) }

/-- The tank record of spec section 8: sensor_gallons 150.5, nominal 300. -/
def tankC8 : JValue := JValue.obj
  [("tank_id", JValue.num 1), ("sensor_gallons", JValue.str "150.5"),
   ("nominal", JValue.str "300")]

/-- The tank record of spec section 8 extended with low_level 0.25. -/
def tankC8low : JValue := JValue.obj
  [("tank_id", JValue.num 1), ("sensor_gallons", JValue.str "150.5"),
   ("nominal", JValue.str "300"), ("low_level", JValue.str "0.25")]

/-! ## Helper lemmas -/

/-- Correctness of the character-list matcher against list prefixes. -/
lemma startsWithChars_iff (p t : List Char) : startsWithChars p t = true ↔ p <+: t := by
  induction p generalizing t with
  | nil => simp [startsWithChars]
  | cons a ps ih =>
    cases t with
    | nil => simp [startsWithChars]
    | cons b ts =>
      simp [startsWithChars, List.cons_prefix_cons, ih, Bool.and_eq_true, beq_iff_eq]

/-- Correctness of the substring test against list infixes. -/
lemma listSub_iff (p t : List Char) : listSub p t = true ↔ p <:+: t := by
  induction t with
  | nil => simp [listSub, List.isEmpty_iff]
  | cons c cs ih =>
    rw [listSub, List.infix_cons_iff]
    simp [startsWithChars_iff, ih]

/-- A body containing the full attribute text also contains the bare
password-field marker. -/
lemma strContains_userpass (s : String)
    (h : strContains s "name=\"user_pass\"" = true) : strContains s "user_pass" = true := by
  rw [strContains, listSub_iff] at h ⊢
  refine List.IsInfix.trans ?_ h
  exact (listSub_iff "user_pass".toList "name=\"user_pass\"".toList).1 rfl

/-- A successful `dict.get` forces the value to be a mapping. -/
lemma isDict_of_pyGet {d : JValue} {k : String} {v : JValue}
    (h : pyGet d k = some v) : isDict d = true := by
  cases d <;> simp_all [pyGet, isDict]

/-- A successful `get_tanks_list` returns exactly the JSON value decoded
from the response body. -/
lemma get_tanks_list_ok_inv (r : AjaxResponse) (d : JValue)
    (h : get_tanks_list (NetResult.ok r) = Except.ok d) : r.json = some d := by
  simp only [get_tanks_list] at h
  by_cases h1 : r.status = 401 ∨ r.status = 403
  · rw [if_pos h1] at h; simp at h
  · rw [if_neg h1] at h
    by_cases h2 : 400 ≤ r.status
    · rw [if_pos h2] at h; simp at h
    · rw [if_neg h2] at h
      by_cases h3 : strContains r.contentType "application/json" = true
      · rw [h3] at h
        simp only [Bool.not_true, Bool.false_eq_true, if_false] at h
        cases hj : r.json with
        | none => rw [hj] at h; simp at h
        | some data =>
          rw [hj] at h
          simp only [] at h
          by_cases hd : isDict data = true
          · rw [if_pos hd] at h
            cases hst : pyGet data "Status" with
            | some s =>
              rw [hst] at h
              simp only [] at h
              by_cases hsu : statusIsUnauthorized s = true
              · rw [if_pos hsu] at h; simp at h
              · rw [if_neg hsu] at h
                cases hres : pyGet data "result" with
                | some v =>
                  rw [hres] at h
                  cases v <;> simp_all
                  all_goals (split at h <;> simp_all)
                | none => rw [hres] at h; simp_all
            | none =>
              rw [hst] at h
              simp only [] at h
              cases hres : pyGet data "result" with
              | some v =>
                rw [hres] at h
                cases v <;> simp_all
                all_goals (split at h <;> simp_all)
              | none => rw [hres] at h; simp_all
          · rw [if_neg hd] at h; simp_all
      · rw [Bool.not_eq_true] at h3
        rw [h3] at h
        simp only [Bool.not_false, if_true] at h
        split at h <;> simp at h

/-! ## Claim theorems -/

/-- C1, counterexample: when the initial fetch raises `AuthError`, the
re-login succeeds, and the retried fetch raises `AuthError` again, the
coordinator raises `ConfigEntryAuthFailed` (the NeedsReauth signal) and
not `UpdateFailed`, contradicting the claim that a failed retry is always
surfaced as a recoverable update failure. -/
theorem retry_fetch_auth_error_reaches_reauth_handler :
    (async_update_data CallResult.authErr (CallResult.ok ()) CallResult.authErr).1
      = CoordOutcome.configEntryAuthFailed
    ∧ (async_update_data CallResult.authErr (CallResult.ok ()) CallResult.authErr).1
      ≠ CoordOutcome.updateFailed :=
  ⟨rfl, fun h => nomatch h⟩

/-- C1, amended: after an `AuthError` from the initial fetch and a
successful re-login, exactly one retried fetch is attempted and no further
login or fetch attempt follows in that refresh; a retry failing with
`ApiError` or any other non-auth exception is surfaced as `UpdateFailed`,
while a retry failing with `AuthError` is surfaced as
`ConfigEntryAuthFailed` (the retried fetch runs inside the same
except-AuthError handler as the login), and a successful retry publishes
its snapshot. -/
theorem coordinator_single_retry_outcome (f2 : CallResult JValue) :
    (async_update_data CallResult.authErr (CallResult.ok ()) f2).2
      = [CallEvent.fetchCall, CallEvent.loginCall, CallEvent.fetchCall]
    ∧ (f2 = CallResult.apiErr ∨ f2 = CallResult.otherErr →
        (async_update_data CallResult.authErr (CallResult.ok ()) f2).1
          = CoordOutcome.updateFailed)
    ∧ (f2 = CallResult.authErr →
        (async_update_data CallResult.authErr (CallResult.ok ()) f2).1
          = CoordOutcome.configEntryAuthFailed)
    ∧ (∀ d, f2 = CallResult.ok d →
        (async_update_data CallResult.authErr (CallResult.ok ()) f2).1
          = CoordOutcome.success d) := by
  cases f2 <;>
    refine ⟨rfl, ?_, ?_, ?_⟩ <;>
    (intros; simp_all [async_update_data])

/-- C1, witness: the amended theorem evaluated at a retry failing with
`ApiError`. -/
theorem coordinator_single_retry_outcome_witness :
    (async_update_data CallResult.authErr (CallResult.ok ()) CallResult.apiErr).1
      = CoordOutcome.updateFailed
    ∧ (async_update_data CallResult.authErr (CallResult.ok ()) CallResult.apiErr).2
      = [CallEvent.fetchCall, CallEvent.loginCall, CallEvent.fetchCall] :=
  ⟨(coordinator_single_retry_outcome CallResult.apiErr).2.1 (Or.inl rfl),
   (coordinator_single_retry_outcome CallResult.apiErr).1⟩

/-- C2, counterexample: a non-JSON body consisting of the single marker
`Login` — containing neither `user_pass` nor `Smart Oil Gauge` — is
classified as `AuthError`, not as the `ApiError` the claim prescribes for
bodies that lack the password-field marker and lack the
Login-plus-product-name pair. -/
theorem non_json_login_marker_alone_is_auth_failure :
    get_tanks_list (NetResult.ok respLoginOnly) = Except.error Failure.authError
    ∧ get_tanks_list (NetResult.ok respLoginOnly) ≠ Except.error Failure.apiError :=
  ⟨rfl, fun h => nomatch h⟩

/-- C2, amended: for a non-JSON response that passed the HTTP status
checks, `get_tanks_list` uses its own marker set, broader than the login
heuristic: a body containing any one of `ccf_nonce`, `user_pass`, or
`Login` (the product-name marker is not consulted) raises `AuthError`,
and a body containing none of the three raises `ApiError`. -/
theorem non_json_body_marker_classification (status : ℕ) (ct body : String)
    (j : Option JValue)
    (h1 : ¬ (status = 401 ∨ status = 403)) (h2 : status < 400)
    (h3 : strContains ct "application/json" = false) :
    get_tanks_list (NetResult.ok (AjaxResponse.mk status ct body j))
      = if strContains body "ccf_nonce" || strContains body "user_pass" ||
          strContains body "Login" then
          Except.error Failure.authError
        else Except.error Failure.apiError := by
  simp only [get_tanks_list]
  rw [if_neg h1, if_neg (by omega : ¬ 400 ≤ status), h3]
  simp only [Bool.not_false, if_true]

/-- C2, witness: the amended theorem evaluated at an HTTP 200 `text/html`
login page containing the password field. -/
theorem non_json_body_marker_classification_witness :
    get_tanks_list (NetResult.ok respC2w) = Except.error Failure.authError :=
  (non_json_body_marker_classification 200 "text/html"
      "<input name=\"user_pass\">" none (by omega) (by omega) rfl).trans (by rfl)

/-- C3: when the initial fetch raises `AuthError` and the re-login also
raises `AuthError`, the coordinator raises `ConfigEntryAuthFailed` — a
signal distinct from `UpdateFailed` — after exactly one fetch and one
login call, and the previously cached snapshot (modelled by
`refreshStore`) is left unchanged by the failed refresh. -/
theorem login_auth_failure_triggers_reauth (prev : Option JValue)
    (f2 : CallResult JValue) :
    async_update_data CallResult.authErr CallResult.authErr f2
      = (CoordOutcome.configEntryAuthFailed, [CallEvent.fetchCall, CallEvent.loginCall])
    ∧ refreshStore prev
        (async_update_data CallResult.authErr CallResult.authErr f2).1 = prev
    ∧ CoordOutcome.configEntryAuthFailed ≠ CoordOutcome.updateFailed :=
  ⟨rfl, rfl, fun h => nomatch h⟩

/-- C4: the timeout budget is the fixed 15 seconds, and a timeout on any
of the three network operations — the login-page GET in `_fetch_nonce`
(also as reached through `login`), the credentials POST in `login`, and
the AJAX POST in `get_tanks_list` — is raised as `ApiError`, which is a
different failure kind from `AuthError`. -/
theorem timeouts_always_transient :
    DEFAULT_TIMEOUT = 15
    ∧ fetch_nonce NetResult.timeout = Except.error Failure.apiError
    ∧ (∀ post : NetResult LoginResponse,
        login NetResult.timeout post = Except.error Failure.apiError)
    ∧ (∀ page : String,
        login (NetResult.ok page) NetResult.timeout = Except.error Failure.apiError)
    ∧ get_tanks_list NetResult.timeout = Except.error Failure.apiError
    ∧ Failure.apiError ≠ Failure.authError :=
  ⟨rfl, rfl, fun _ => rfl, fun _ => rfl, rfl, fun h => nomatch h⟩

/-- C5: a response with JSON content type whose decoded body is a mapping
with `Status` equal to 401 or 403 is never returned as a successful
snapshot, and when the HTTP status is 200 it raises `AuthError`. -/
theorem json_status_unauthorized_is_auth_failure (r : AjaxResponse) (d : JValue)
    (hct : strContains r.contentType "application/json" = true)
    (hj : r.json = some d)
    (hs : pyGet d "Status" = some (JValue.num 401) ∨
      pyGet d "Status" = some (JValue.num 403)) :
    (∀ v, get_tanks_list (NetResult.ok r) ≠ Except.ok v)
    ∧ (r.status = 200 → get_tanks_list (NetResult.ok r) = Except.error Failure.authError) := by
  have hd : isDict d = true := by
    rcases hs with h | h <;> exact isDict_of_pyGet h
  have hsu : ∃ s, pyGet d "Status" = some s ∧ statusIsUnauthorized s = true := by
    rcases hs with h | h
    · exact ⟨JValue.num 401, h, rfl⟩
    · exact ⟨JValue.num 403, h, rfl⟩
  obtain ⟨s, hst, hu⟩ := hsu
  constructor
  · intro v hv
    have hjv := get_tanks_list_ok_inv r v hv
    rw [hj] at hjv
    obtain rfl : d = v := by injection hjv
    simp only [get_tanks_list] at hv
    by_cases h1 : r.status = 401 ∨ r.status = 403
    · rw [if_pos h1] at hv; simp at hv
    · rw [if_neg h1] at hv
      by_cases h2 : 400 ≤ r.status
      · rw [if_pos h2] at hv; simp at hv
      · rw [if_neg h2] at hv
        rw [hct] at hv
        simp only [Bool.not_true, Bool.false_eq_true, if_false] at hv
        rw [hj] at hv
        simp only [] at hv
        rw [if_pos hd, hst] at hv
        simp only [] at hv
        rw [if_pos hu] at hv
        simp at hv
  · intro h200
    have h1 : ¬ (r.status = 401 ∨ r.status = 403) := by omega
    have h2 : ¬ 400 ≤ r.status := by omega
    simp only [get_tanks_list]
    rw [if_neg h1, if_neg h2, hct]
    simp only [Bool.not_true, Bool.false_eq_true, if_false]
    rw [hj]
    simp only []
    rw [if_pos hd, hst]
    simp only []
    rw [if_pos hu]

/-- C5, witness: the theorem evaluated at an HTTP 200 JSON response with
body Status 401. -/
theorem json_status_unauthorized_is_auth_failure_witness :
    get_tanks_list (NetResult.ok respC5) = Except.error Failure.authError :=
  (json_status_unauthorized_is_auth_failure respC5
      (JValue.obj [("Status", JValue.num 401)]) rfl rfl (Or.inl rfl)).2 rfl

/-- C6: the login POST response is classified in order: HTTP 5xx raises
`ApiError`; HTTP 401/403 raises `AuthError`; otherwise the body is
inspected and `AuthError` is raised exactly when the body contains
`user_pass` or contains both `Login` and `Smart Oil Gauge`, every other
such response being success; and `login` applies exactly this
classification to its POST response. -/
theorem login_post_response_classification (r : LoginResponse) :
    (500 ≤ r.status → loginClassify r = Except.error Failure.apiError)
    ∧ (r.status < 500 → r.status = 401 ∨ r.status = 403 →
        loginClassify r = Except.error Failure.authError)
    ∧ (r.status < 500 → ¬ (r.status = 401 ∨ r.status = 403) →
        ((loginClassify r = Except.error Failure.authError ↔
          (strContains r.bodyText "user_pass" = true ∨
            (strContains r.bodyText "Login" = true ∧
              strContains r.bodyText "Smart Oil Gauge" = true)))
        ∧ (loginClassify r = Except.error Failure.authError ∨
            loginClassify r = Except.ok ())))
    ∧ (∀ page : String, login (NetResult.ok page) (NetResult.ok r) = loginClassify r) := by
  refine ⟨?_, ?_, ?_, fun _ => rfl⟩
  · intro h5
    simp only [loginClassify, if_pos h5]
  · intro h5 h43
    simp only [loginClassify, if_neg (by omega : ¬ 500 ≤ r.status), if_pos h43]
  · intro h5 h43
    have hlt : ¬ 500 ≤ r.status := by omega
    by_cases hup : (strContains r.bodyText "name=\"user_pass\"" ||
        strContains r.bodyText "user_pass") = true
    · have heq : loginClassify r = Except.error Failure.authError := by
        simp only [loginClassify, if_neg hlt, if_neg h43, hup, if_true]
      refine ⟨⟨fun _ => ?_, fun _ => heq⟩, Or.inl heq⟩
      rcases (Bool.or_eq_true _ _).mp hup with h1 | h1
      · exact Or.inl (strContains_userpass _ h1)
      · exact Or.inl h1
    · rw [Bool.or_eq_true] at hup
      push_neg at hup
      obtain ⟨hnp, hup2⟩ := hup
      by_cases hlg : (strContains r.bodyText "Login" &&
          strContains r.bodyText "Smart Oil Gauge") = true
      · have heq : loginClassify r = Except.error Failure.authError := by
          simp only [loginClassify, if_neg hlt, if_neg h43]
          rw [if_neg (by simp [hnp, hup2] :
            ¬ (strContains r.bodyText "name=\"user_pass\"" ||
              strContains r.bodyText "user_pass") = true)]
          rw [if_pos hlg]
        rw [Bool.and_eq_true] at hlg
        exact ⟨⟨fun _ => Or.inr ⟨hlg.1, hlg.2⟩, fun _ => heq⟩, Or.inl heq⟩
      · have heq : loginClassify r = Except.ok () := by
          simp only [loginClassify, if_neg hlt, if_neg h43]
          rw [if_neg (by simp [hnp, hup2] :
            ¬ (strContains r.bodyText "name=\"user_pass\"" ||
              strContains r.bodyText "user_pass") = true)]
          rw [if_neg hlg]
        refine ⟨⟨fun hc => absurd (heq ▸ hc) (by simp), fun hm => ?_⟩, Or.inr heq⟩
        rcases hm with h1 | ⟨h1, h2⟩
        · exact absurd h1 (by simp [hup2])
        · exact absurd (by rw [Bool.and_eq_true]; exact ⟨h1, h2⟩) hlg

/-- C6, witness: the theorem evaluated at an HTTP 503 response and at an
HTTP 403 response. -/
theorem login_post_response_classification_witness :
    loginClassify (LoginResponse.mk 503 "") = Except.error Failure.apiError
    ∧ loginClassify (LoginResponse.mk 403 "") = Except.error Failure.authError :=
  ⟨(login_post_response_classification (LoginResponse.mk 503 "")).1 (by decide),
   (login_post_response_classification (LoginResponse.mk 403 "")).2.1
      (by decide) (Or.inr rfl)⟩

/-- C7: a successful `get_tanks_list` returns the decoded response body
itself, and the coordinator publishes exactly that value — the returned
snapshot is the fetched mapping unmodified, and the cached snapshot
becomes exactly it. -/
theorem coordinator_publishes_snapshot_verbatim (net : NetResult AjaxResponse)
    (d : JValue) (h : get_tanks_list net = Except.ok d) :
    (∃ r, net = NetResult.ok r ∧ r.json = some d)
    ∧ (∀ (lg : CallResult Unit) (f2 : CallResult JValue) (prev : Option JValue),
        async_update_data (toCallResult (get_tanks_list net)) lg f2
          = (CoordOutcome.success d, [CallEvent.fetchCall])
        ∧ refreshStore prev (CoordOutcome.success d) = some d) := by
  constructor
  · cases net with
    | timeout => exact absurd h (by simp [get_tanks_list])
    | clientError => exact absurd h (by simp [get_tanks_list])
    | ok r => exact ⟨r, rfl, get_tanks_list_ok_inv r d h⟩
  · intro lg f2 prev
    rw [h]
    exact ⟨rfl, rfl⟩

/-- C7, witness: the theorem evaluated at a concrete successful response
carrying an empty tanks list. -/
theorem coordinator_publishes_snapshot_verbatim_witness :
    async_update_data (toCallResult (get_tanks_list (NetResult.ok respTanks)))
        CallResult.authErr CallResult.authErr
      = (CoordOutcome.success (JValue.obj [("tanks", JValue.arr [])]),
          [CallEvent.fetchCall])
    ∧ refreshStore none (CoordOutcome.success (JValue.obj [("tanks", JValue.arr [])]))
      = some (JValue.obj [("tanks", JValue.arr [])]) :=
  (coordinator_publishes_snapshot_verbatim (NetResult.ok respTanks)
      (JValue.obj [("tanks", JValue.arr [])]) rfl).2
    CallResult.authErr CallResult.authErr none

/-- Evaluation of the gallons field of the section-8 tank record. -/
lemma gallons_eval_c8 : safe_float (pyGet tankC8 "sensor_gallons") = some (301 / 2) := by
  rw [show safe_float (pyGet tankC8 "sensor_gallons")
      = some ((1 : ℚ) * ((150 : ℚ) + (5 : ℚ) / (10 : ℚ) ^ (1 : ℕ))) from rfl]
  norm_num

/-- Evaluation of the nominal field of the section-8 tank record. -/
lemma capacity_eval_c8 : safe_float (pyGet tankC8 "nominal") = some 300 := by
  rw [show safe_float (pyGet tankC8 "nominal")
      = some ((1 : ℚ) * ((300 : ℚ) + (0 : ℚ) / (10 : ℚ) ^ (0 : ℕ))) from rfl]
  norm_num

/-- Evaluation of the gallons field of the extended section-8 record. -/
lemma gallons_eval_c8low :
    safe_float (pyGet tankC8low "sensor_gallons") = some (301 / 2) := by
  rw [show safe_float (pyGet tankC8low "sensor_gallons")
      = some ((1 : ℚ) * ((150 : ℚ) + (5 : ℚ) / (10 : ℚ) ^ (1 : ℕ))) from rfl]
  norm_num

/-- Evaluation of the nominal field of the extended section-8 record. -/
lemma capacity_eval_c8low : safe_float (pyGet tankC8low "nominal") = some 300 := by
  rw [show safe_float (pyGet tankC8low "nominal")
      = some ((1 : ℚ) * ((300 : ℚ) + (0 : ℚ) / (10 : ℚ) ^ (0 : ℕ))) from rfl]
  norm_num

/-- Evaluation of the low_level field of the extended section-8 record. -/
lemma low_level_eval_c8low : safe_float (pyGet tankC8low "low_level") = some (1 / 4) := by
  rw [show safe_float (pyGet tankC8low "low_level")
      = some ((1 : ℚ) * ((0 : ℚ) + (25 : ℚ) / (10 : ℚ) ^ (2 : ℕ))) from rfl]
  norm_num

/-- The percent computation of the section-8 record rounds to 50.17. -/
lemma round_eval_c8 : pyRound2 ((301 : ℚ) / 2 / 300 * 100) = 5017 / 100 := by
  rw [pyRound2, roundHalfEven]
  norm_num

/-- C8: on the spec section-8 tank record (sensor_gallons 150.5, nominal
300) the percent-full sensor yields 50.17 = round(150.5 / 300 * 100, 2),
and with low_level 0.25 the low-oil sensor yields false because the
gallons 150.5 exceed the threshold 300 * 0.25 = 75. -/
theorem percent_full_and_low_oil_example :
    percent_full_value (some tankC8) = some (5017 / 100)
    ∧ pyRound2 ((150.5 : ℚ) / 300 * 100) = 5017 / 100
    ∧ low_oil_is_on (some tankC8low) = some false
    ∧ (300 : ℚ) * (25 / 100) = 75
    ∧ ¬ ((150.5 : ℚ) ≤ 75) := by
  refine ⟨?_, ?_, ?_, by norm_num, by norm_num⟩
  · rw [percent_full_value]
    rw [show pyTruthy (some tankC8) = true from rfl]
    simp only [Bool.not_true, Bool.false_eq_true, if_false]
    rw [show tankCapacity tankC8 = 300 from by rw [tankCapacity, capacity_eval_c8]; rfl]
    rw [show tankGallons tankC8 = 301 / 2 from by rw [tankGallons, gallons_eval_c8]; rfl]
    rw [if_neg (by norm_num : ¬ (300 : ℚ) ≤ 0)]
    rw [round_eval_c8]
  · rw [show (150.5 : ℚ) = 301 / 2 from by norm_num]
    exact round_eval_c8
  · rw [low_oil_is_on]
    rw [show pyTruthy (some tankC8low) = true from rfl]
    rw [gallons_eval_c8low, low_level_eval_c8low, capacity_eval_c8low]
    simp only [Bool.not_true, Bool.false_eq_true, if_false]
    rw [decide_eq_false (by norm_num : ¬ ((301 : ℚ) / 2 ≤ 300 * (1 / 4)))]

/-- C9: `_tanks_from` is total by construction and returns the `tanks`
value exactly when the data is a mapping whose `tanks` entry is a list,
and the empty list when the data is `None`, not a mapping, or has a
missing or non-list `tanks` entry. -/
theorem tanks_from_total_characterization :
    (∀ (fields : List (String × JValue)) (xs : List JValue),
        pyGet (JValue.obj fields) "tanks" = some (JValue.arr xs) →
        tanks_from (some (JValue.obj fields)) = xs)
    ∧ tanks_from none = []
    ∧ (∀ v : JValue, isDict v = false → tanks_from (some v) = [])
    ∧ (∀ fields : List (String × JValue),
        (∀ xs : List JValue, pyGet (JValue.obj fields) "tanks" ≠ some (JValue.arr xs)) →
        tanks_from (some (JValue.obj fields)) = []) := by
  refine ⟨?_, rfl, ?_, ?_⟩
  · intro fields xs h
    simp only [tanks_from, h]
  · intro v hv
    cases v <;> simp_all [tanks_from, isDict]
  · intro fields h
    simp only [tanks_from]

/-- C9, witness: the characterization evaluated at a record with a tanks
list, at a non-mapping, and at a mapping without a tanks entry. -/
theorem tanks_from_total_characterization_witness :
    tanks_from (some (JValue.obj [("tanks", JValue.arr [JValue.num 1])]))
      = [JValue.num 1]
    ∧ tanks_from (some JValue.null) = []
    ∧ tanks_from (some (JValue.obj [("x", JValue.null)])) = [] :=
  ⟨tanks_from_total_characterization.1 [("tanks", JValue.arr [JValue.num 1])]
      [JValue.num 1] rfl,
   tanks_from_total_characterization.2.2.1 JValue.null rfl,
   tanks_from_total_characterization.2.2.2 [("x", JValue.null)]
      (fun _ h => nomatch h)⟩

/-- C10: for every non-empty tank record, the percent-full value is never
`None`; a missing or non-numeric nominal field, or a non-positive
capacity, yields exactly 0; a missing or non-numeric sensor_gallons field
is treated as 0; and the division by the capacity is performed only in the
branch where the capacity is positive. -/
theorem percent_full_never_none_guards (fields : List (String × JValue))
    (hne : fields ≠ []) :
    (percent_full_value (some (JValue.obj fields))).isSome = true
    ∧ (safe_float (pyGet (JValue.obj fields) "nominal") = none →
        percent_full_value (some (JValue.obj fields)) = some 0)
    ∧ (tankCapacity (JValue.obj fields) ≤ 0 →
        percent_full_value (some (JValue.obj fields)) = some 0)
    ∧ (safe_float (pyGet (JValue.obj fields) "sensor_gallons") = none →
        tankGallons (JValue.obj fields) = 0)
    ∧ (0 < tankCapacity (JValue.obj fields) →
        percent_full_value (some (JValue.obj fields)) =
          some (pyRound2 (tankGallons (JValue.obj fields) /
            tankCapacity (JValue.obj fields) * 100))) := by
  have ht : pyTruthy (some (JValue.obj fields)) = true := by
    cases fields with
    | nil => exact absurd rfl hne
    | cons a as => rfl
  have hunf : percent_full_value (some (JValue.obj fields)) =
      if tankCapacity (JValue.obj fields) ≤ 0 then some 0
      else some (pyRound2 (tankGallons (JValue.obj fields) /
        tankCapacity (JValue.obj fields) * 100)) := by
    simp only [percent_full_value, ht, Bool.not_true, Bool.false_eq_true, if_false]
  have hcap0 : tankCapacity (JValue.obj fields) ≤ 0 →
      percent_full_value (some (JValue.obj fields)) = some 0 := by
    intro hc; rw [hunf, if_pos hc]
  refine ⟨?_, ?_, hcap0, ?_, ?_⟩
  · rw [hunf]
    by_cases hc : tankCapacity (JValue.obj fields) ≤ 0
    · rw [if_pos hc]; rfl
    · rw [if_neg hc]; rfl
  · intro hnone
    refine hcap0 ?_
    rw [tankCapacity, hnone]
    norm_num
  · intro hnone
    rw [tankGallons, hnone]
    rfl
  · intro hpos
    rw [hunf, if_neg (not_le.mpr hpos)]

/-- C10, witness: the theorem evaluated at a record whose nominal field is
a non-numeric string. -/
theorem percent_full_never_none_guards_witness :
    percent_full_value (some (JValue.obj [("nominal", JValue.str "n/a")])) = some 0 :=
  (percent_full_never_none_guards [("nominal", JValue.str "n/a")]
      (by simp)).2.1 rfl

end SmartOil
